import Mathlib

/-!
Verification of the PhxSocket connection controller (src/PhxSocket.cpp).

The controller is shallowly embedded as a pure state machine.  The C++ code
funnels every state mutation and callback invocation through a single-worker
FIFO executor (the `pool`), so the observable behaviour is a sequence of
serialized handler executions; each handler is translated to a pure function
`State -> State × List Action`, where `Action` records the externally visible
effects (transport operations, channel deliveries, callback and delegate
invocations, timer spawns).  Detached timer threads only sleep and then
enqueue work, so a timer firing is modelled as its own event
(`heartbeatTickE`, `reconnectFireE`).

JSON values (the external nlohmann library) are modelled by a small
inductive `Json`; objects keep their fields as an association list in the
order the source writes them (key ordering inside the external serializer is
a representation detail of that library, not of this code).
-/

namespace Phx

/-- JSON values as used by the controller: null, booleans, integer numbers,
strings, arrays and objects.  The controller only ever builds and inspects
integer refs, strings and objects. -/
inductive Json where
  | null : Json
  | bool : Bool → Json
  | num : Int → Json
  | str : String → Json
  | arr : List Json → Json
  | obj : List (String × Json) → Json

mutual

/-- Serialization of a JSON value, as nlohmann's dump() with no indentation
(the plain ASCII strings the controller emits need no escaping). -/
def Json.dump : Json → String
  | .null => "null"
  | .bool true => "true"
  | .bool false => "false"
  | .num n => toString n
  | .str s => "\"" ++ s ++ "\""
  | .arr xs => "[" ++ Json.dumpElems xs ++ "]"
  | .obj kvs => "\x7b" ++ Json.dumpFields kvs ++ "\x7d"

/-- Comma-separated serialization of array elements. -/
def Json.dumpElems : List Json → String
  | [] => ""
  | [x] => x.dump
  | x :: y :: xs => x.dump ++ "," ++ Json.dumpElems (y :: xs)

/-- Comma-separated serialization of object fields, in stored order. -/
def Json.dumpFields : List (String × Json) → String
  | [] => ""
  | [(k, v)] => "\"" ++ k ++ "\":" ++ v.dump
  | (k, v) :: kv :: kvs =>
    "\"" ++ k ++ "\":" ++ v.dump ++ "," ++ Json.dumpFields (kv :: kvs)

end

/-- Object field lookup, modelling json["key"] reads on a parsed message
(absent key reads as null). -/
def Json.lookup (j : Json) (key : String) : Json :=
  match j with
  | .obj kvs =>
    match kvs.find? (fun kv => kv.1 == key) with
    | some kv => kv.2
    | none => .null
  | _ => .null

/-- Test for the JSON null value, modelling is_null(). -/
def Json.isNull : Json → Bool
  | .null => true
  | _ => false

/-- Conversion of a JSON value to a 64-bit integer, modelling the throwing
assignment int64_t r = json_value (none models the thrown type_error). -/
def Json.asInt : Json → Option Int
  | .num n => some n
  | _ => none

/-- Conversion of a JSON value to a string, modelling the throwing
assignment std::string s = json_value. -/
def Json.asString : Json → Option String
  | .str s => some s
  | _ => none

/-- A registered logical channel: an identity (modelling shared_ptr
identity, which is what std::find compares in removeChannel) and a topic
string (PhxChannel::getTopic). -/
structure Channel where
  id : Nat
  topic : String
deriving DecidableEq, Repr

/-- Connection parameters, modelling std::map<std::string, std::string>. -/
abbrev Params := List (String × String)

/-- Externally visible effects of one serialized handler execution. -/
inductive Action where
  | setURL : String → Action
  | sockOpen : Action
  | sockClose : Action
  | clearDelegate : Action
  | send : String → Action
  | triggerEvent : Channel → String → Json → Int → Action
  | openCb : Nat → Action
  | closeCb : Nat → String → Action
  | errorCb : Nat → String → Action
  | messageCb : Nat → Json → Action
  | delegateDidOpen : Action
  | delegateDidClose : String → Action
  | delegateDidError : String → Action
  | spawnHeartbeatLoop : Action
  | spawnReconnectTimer : Action

/-- Controller state: the fields of class PhxSocket.  Callback registries
hold opaque callables, so only their registration count is modelled; the
delegate weak reference is modelled by whether it is currently lockable. -/
structure State where
  url : String
  params : Params
  heartBeatInterval : Int
  reconnectOnError : Bool
  ref : Int
  canReconnect : Bool
  canSendHeartbeat : Bool
  reconnecting : Bool
  socket : Bool
  channels : List Channel
  openCallbacks : Nat
  closeCallbacks : Nat
  errorCallbacks : Nat
  messageCallbacks : Nat
  delegate : Bool
deriving DecidableEq, Repr

/-- Modelled from the spec: the field initializers live in PhxSocket.h,
which is not part of the sources; the spec fixes the reference counter to
start at 0 and the controller to start Disconnected with no timer live and
no reconnect attempt in flight.  The constructor body (lines 14-19) sets
url, heartBeatInterval and reconnectOnError = true. -/
def init (url : String) (interval : Int) : State :=
  { url := url
    params := []
    heartBeatInterval := interval
    reconnectOnError := true
    ref := 0
    canReconnect := false
    canSendHeartbeat := false
    reconnecting := false
    socket := false
    channels := []
    openCallbacks := 0
    closeCallbacks := 0
    errorCallbacks := 0
    messageCallbacks := 0
    delegate := false }

/-- Lines 276-279: setCanReconnect enqueues the flag write on the pool; in
the serialized timeline it is the flag write. -/
def setCanReconnect (b : Bool) (s : State) : State :=
  { s with canReconnect := b }

/-- Lines 281-285: setCanSendHeartBeat likewise. -/
def setCanSendHeartBeat (b : Bool) (s : State) : State :=
  { s with canSendHeartbeat := b }

/-- Lines 123-125. -/
def discardHeartBeatTimer (s : State) : State :=
  setCanSendHeartBeat false s

/-- Lines 127-129. -/
def discardReconnectTimer (s : State) : State :=
  setCanReconnect false s

/-- Lines 131-137: if a transport exists, clear its delegate, close it and
release the reference. -/
def disconnectSocket (s : State) : State × List Action :=
  if s.socket then
    ({ s with socket := false }, [.clearDelegate, .sockClose])
  else
    (s, [])

/-- Lines 38-60: connect(params) records params, disables any pending
reconnect, constructs the default transport if none exists (binding this
controller as its delegate), then sets the URL and opens.  Both branches of
the FIXME at lines 42-47 assign the constructor URL to the local url. -/
def connect (params : Params) (s : State) : State × List Action :=
  let s := { s with params := params }
  let s := setCanReconnect false s
  let s := { s with socket := true }
  (s, [.setURL s.url, .sockOpen])

/-- Lines 62-66. -/
def disconnect (s : State) : State × List Action :=
  let s := discardHeartBeatTimer s
  let s := discardReconnectTimer s
  disconnectSocket s

/-- Lines 68-71: reconnect closes the socket and reconnects with the
last-used params. -/
def reconnect (s : State) : State × List Action :=
  let (s, a1) := disconnectSocket s
  let (s, a2) := connect s.params s
  (s, a1 ++ a2)

/-- Reference model for the refinement claim, following the spec sentence
word for word: reconnect is "equivalent to disconnect-then-connect using the
last-used params".  It is compared against `reconnect`, which is translated
from the source. -/
def reconnectAsSpecified (s : State) : State × List Action :=
  let (s, a1) := disconnect s
  let (s, a2) := connect s.params s
  (s, a1 ++ a2)

/-- Lines 104-106: returns the current counter value, then increments. -/
def makeRef (s : State) : Int × State :=
  (s.ref, { s with ref := s.ref + 1 })

/-- Lines 117-119: push serializes the envelope and sends it. -/
def push (data : Json) (s : State) : State × List Action :=
  (s, [.send data.dump])

/-- Lines 95-100: the heartbeat envelope literal, fields in source order.
The payload written as empty braces at line 98 value-initializes the
external JSON value, which makes it null (the empty-braces pitfall of that
library), not the empty object: the wire payload of every heartbeat is
null. -/
def heartbeatEnvelope (r : Int) : Json :=
  .obj [("topic", .str "phoenix"), ("event", .str "heartbeat"),
        ("payload", .null), ("ref", .num r)]

/-- Lines 93-102: push the heartbeat envelope with a freshly minted ref. -/
def sendHeartbeat (s : State) : State × List Action :=
  let (r, s) := makeRef s
  push (heartbeatEnvelope r) s

/-- Lines 252-257: every registered channel gets a phx_error event with the
error string as payload and ref 0. -/
def triggerChanError (error : String) (s : State) : State × List Action :=
  (s, s.channels.map (fun c => .triggerEvent c "phx_error" (.str error) 0))

/-- Lines 139-170: on open, cancel any pending reconnect; if the heartbeat
interval is positive, spawn the heartbeat loop (whose first act is
setCanSendHeartBeat(true)); then run the open callbacks in registration
order and the delegate hook. -/
def onConnOpen (s : State) : State × List Action :=
  let s := discardReconnectTimer s
  let (s, spawn) :=
    if s.heartBeatInterval > 0 then
      (setCanSendHeartBeat true s, [Action.spawnHeartbeatLoop])
    else (s, [])
  let opens := (List.range s.openCallbacks).map Action.openCb
  let del := if s.delegate then [Action.delegateDidOpen] else []
  (s, spawn ++ opens ++ del)

/-- Lines 172-209: on close, broadcast phx_error to every channel; then, if
auto-reconnect is on and no attempt is in flight, mark one in flight, enable
the pending-reconnect flag and spawn the reconnect timer; disable heartbeat
sending; finally run close callbacks and the delegate hook. -/
def onConnClose (event : String) (s : State) : State × List Action :=
  let (s, errs) := triggerChanError event s
  let (s, spawn) :=
    if s.reconnectOnError && !s.reconnecting then
      ({ s with reconnecting := true, canReconnect := true },
        [Action.spawnReconnectTimer])
    else (s, [])
  let s := discardHeartBeatTimer s
  let closes := (List.range s.closeCallbacks).map (fun i => Action.closeCb i event)
  let del := if s.delegate then [Action.delegateDidClose event] else []
  (s, errs ++ spawn ++ closes ++ del)

/-- Lines 211-224: on error, disable heartbeat sending, run error callbacks
and the delegate hook, then process the error as a close. -/
def onConnError (error : String) (s : State) : State × List Action :=
  let s := discardHeartBeatTimer s
  let errs := (List.range s.errorCallbacks).map (fun i => Action.errorCb i error)
  let del := if s.delegate then [Action.delegateDidError error] else []
  let (s, closeActs) := onConnClose error s
  (s, errs ++ del ++ closeActs)

/-- Lines 233-237: int64_t ref = -1; if the wire ref is not null it is
converted to an integer (throwing on non-integer values). -/
def parseRef (j : Json) : Option Int :=
  if j.isNull then some (-1) else j.asInt

/-- Lines 227-231: reading the four envelope fields off the parsed message;
the string conversions for topic and event and the ref conversion throw on a
type mismatch, which fails the message task before any delivery. -/
def parseEnvelope (msg : Json) : Option (String × String × Int) := do
  let topic ← (msg.lookup "topic").asString
  let ev ← (msg.lookup "event").asString
  let r ← parseRef (msg.lookup "ref")
  pure (topic, ev, r)

/-- Lines 226-250: deliver the envelope to every channel whose topic equals
the envelope topic (in registration order), then invoke every message
callback with the full parsed message. -/
def onConnMessage (msg : Json) (s : State) : Option (State × List Action) :=
  match parseEnvelope msg with
  | none => none
  | some (topic, ev, r) =>
    some (s,
      (s.channels.filter (fun c => c.topic == topic)).map
        (fun c => Action.triggerEvent c ev (msg.lookup "payload") r)
      ++ (List.range s.messageCallbacks).map (fun i => Action.messageCb i msg))

/-- Lines 259-261. -/
def addChannel (c : Channel) (s : State) : State :=
  { s with channels := s.channels ++ [c] }

/-- Lines 263-270: the channel list is copied into a local vector, the first
occurrence of the channel is erased from the copy, and the copy is then
discarded; the persisted registry is never written. -/
def removeChannel (c : Channel) (s : State) : State :=
  let chans := s.channels
  let _erased := chans.erase c
  s

/-- Lines 181-195 spawn this timer: after the fixed delay its enqueued task
reconnects only if the pending-reconnect flag is still enabled, and in all
cases clears the in-flight flag. -/
def reconnectTimerFire (s : State) : State × List Action :=
  let (s, acts) :=
    if s.canReconnect then
      let s := setCanReconnect false s
      reconnect s
    else (s, [])
  ({ s with reconnecting := false }, acts)

/-- Lines 145-159: one wake-up of the heartbeat loop; if heartbeat sending
is still enabled it enqueues sendHeartbeat, otherwise the loop stops. -/
def heartbeatTick (s : State) : State × List Action :=
  if s.canSendHeartbeat then sendHeartbeat s else (s, [])

/-- Serialized events: public API calls and executor-run handler or timer
tasks, each of which owns one step of the machine. -/
inductive Event where
  | connectE : Params → Event
  | disconnectE : Event
  | reconnectE : Event
  | connOpenE : Event
  | connCloseE : String → Event
  | connErrorE : String → Event
  | connMessageE : Json → Event
  | heartbeatTickE : Event
  | reconnectFireE : Event
  | makeRefE : Event
  | addChannelE : Channel → Event
  | removeChannelE : Channel → Event

/-- One serialized step.  A message whose parse throws fails its own task
with no state change and no delivery. -/
def step (e : Event) (s : State) : State × List Action :=
  match e with
  | .connectE p => connect p s
  | .disconnectE => disconnect s
  | .reconnectE => reconnect s
  | .connOpenE => onConnOpen s
  | .connCloseE r => onConnClose r s
  | .connErrorE err => onConnError err s
  | .connMessageE m => (onConnMessage m s).getD (s, [])
  | .heartbeatTickE => heartbeatTick s
  | .reconnectFireE => reconnectTimerFire s
  | .makeRefE => ((makeRef s).2, [])
  | .addChannelE c => (addChannel c s, [])
  | .removeChannelE c => (removeChannel c s, [])

/-- Running a sequence of serialized events, collecting all emitted
actions in order. -/
def run : List Event → State → State × List Action
  | [], s => (s, [])
  | e :: es, s =>
    let p := step e s
    let q := run es p.1
    (q.1, p.2 ++ q.2)

/-- Values returned by the explicit makeRef calls of a trace, in order. -/
def traceRefs : List Event → State → List Int
  | [], _ => []
  | e :: es, s =>
    (match e with
     | .makeRefE => [(makeRef s).1]
     | _ => []) ++ traceRefs es (step e s).1

/-- Events the makeRef claim interleaves with: connects, disconnects,
transport opens and transport closes. -/
def lifecycleEvent : Event → Bool
  | .connectE _ => true
  | .disconnectE => true
  | .connOpenE => true
  | .connCloseE _ => true
  | _ => false

/-- Recognizer for the explicit makeRef event. -/
def isMakeRef : Event → Bool
  | .makeRefE => true
  | _ => false

/-- Recognizer for timer firings (heartbeat loop wake-ups and the reconnect
timer task). -/
def isTimerEvent : Event → Bool
  | .heartbeatTickE => true
  | .reconnectFireE => true
  | _ => false

/-- Recognizer for the reconnect-timer spawn effect. -/
def isSpawnReconnect : Action → Bool
  | .spawnReconnectTimer => true
  | _ => false

/-- Recognizer for channel delivery effects. -/
def isTrigger : Action → Bool
  | .triggerEvent _ _ _ _ => true
  | _ => false

/-- Recognizer for channel delivery effects aimed at a given channel. -/
def isTriggerTo (c : Channel) : Action → Bool
  | .triggerEvent c' _ _ _ => c' == c
  | _ => false

/-- Concrete controller state used by the counterexample below: freshly
constructed, then given a live transport and a live heartbeat loop, exactly
the situation after a connect followed by a transport open. -/
def cexState : State :=
  { init "ws://example" 1 with socket := true, canSendHeartbeat := true }

/-- Channels used by the concrete witnesses. -/
def wChans : List Channel := [⟨0, "room:1"⟩, ⟨1, "lobby"⟩]

/-- Concrete controller state used by the witnesses: two channels, one
callback of each kind, a lockable delegate, a live transport and a live
heartbeat loop. -/
def wState : State :=
  { init "ws://example" 1 with
      channels := wChans, socket := true, canSendHeartbeat := true,
      closeCallbacks := 1, messageCallbacks := 1, delegate := true }

/-- Concrete incoming message with a null wire ref. -/
def wMsgNull : Json :=
  .obj [("topic", .str "room:1"), ("event", .str "new_msg"),
        ("payload", .obj []), ("ref", .null)]

/-- Concrete incoming message with integer wire ref 7. -/
def wMsgInt : Json :=
  .obj [("topic", .str "room:1"), ("event", .str "new_msg"),
        ("payload", .str "body"), ("ref", .num 7)]

/-- C1: a closed event handled while auto-reconnect is on and no attempt is
in flight spawns exactly one reconnect timer and marks the attempt in
flight; a closed event handled while an attempt is in flight spawns none. -/
theorem claim_C1_reconnect_scheduled_once (s s2 : State) (r1 r2 : String)
    (hauto : s.reconnectOnError = true) (hflight : s.reconnecting = false)
    (h2 : s2.reconnecting = true) :
    ((onConnClose r1 s).2.countP isSpawnReconnect = 1
      ∧ (onConnClose r1 s).1.reconnecting = true)
    ∧ (onConnClose r2 s2).2.countP isSpawnReconnect = 0 := by
  refine ⟨⟨?_, ?_⟩, ?_⟩
  · cases hd : s.delegate <;>
      simp [onConnClose, triggerChanError, discardHeartBeatTimer,
        setCanSendHeartBeat, hauto, hflight, hd, List.countP_append,
        List.countP_map, Function.comp_def, isSpawnReconnect, List.countP_cons]
  · simp [onConnClose, triggerChanError, discardHeartBeatTimer,
      setCanSendHeartBeat, hauto, hflight]
  · cases hd : s2.delegate <;>
      simp [onConnClose, triggerChanError, discardHeartBeatTimer,
        setCanSendHeartBeat, h2, hd, List.countP_append,
        List.countP_map, Function.comp_def, isSpawnReconnect, List.countP_cons]

/-- Witness for C1 at concrete states: a fresh connected controller for the
first close, and the state it leaves behind for the second. -/
theorem claim_C1_witness :
    (cexState.reconnectOnError = true ∧ cexState.reconnecting = false
      ∧ ((onConnClose "err" cexState).1.reconnecting = true))
    ∧ (((onConnClose "err" cexState).2.countP isSpawnReconnect = 1
        ∧ (onConnClose "err" cexState).1.reconnecting = true)
      ∧ (onConnClose "err2" (onConnClose "err" cexState).1).2.countP
          isSpawnReconnect = 0) :=
  ⟨⟨by decide, by decide, by decide⟩,
    claim_C1_reconnect_scheduled_once cexState (onConnClose "err" cexState).1
      "err" "err2" (by decide) (by decide) (by decide)⟩

/-- C5 counterexample: on a state whose heartbeat loop is live, reconnect()
as written leaves the heartbeat-enabled flag set, while disconnect-then-
connect(last params) clears it, so the resulting states differ. -/
theorem claim_C5_counterexample :
    ¬ ((reconnect cexState).1 = (reconnectAsSpecified cexState).1) := by
  decide

/-- C5 amended: reconnect() issues exactly the transport operations of
disconnect-then-connect(last params) and produces the same state except
that it leaves the heartbeat-enabled flag unchanged, where disconnect()
clears it. -/
theorem claim_C5_amended (s : State) :
    (reconnect s).2 = (reconnectAsSpecified s).2
    ∧ (reconnect s).1
        = { (reconnectAsSpecified s).1 with canSendHeartbeat := s.canSendHeartbeat } := by
  cases hs : s.socket <;>
    simp [reconnect, reconnectAsSpecified, disconnect, disconnectSocket,
      connect, discardHeartBeatTimer, discardReconnectTimer,
      setCanSendHeartBeat, setCanReconnect, hs]

/-- C10: connect sets the construction URL and opens, identically for any
two params maps; params only land in the stored last-used-params field. -/
theorem claim_C10_params_noninterference (p1 p2 : Params) (s : State) :
    (connect p1 s).2 = [.setURL s.url, .sockOpen]
    ∧ (connect p1 s).2 = (connect p2 s).2
    ∧ (connect p1 s).1 = { (connect p2 s).1 with params := p1 }
    ∧ (connect p1 s).1.params = p1 :=
  ⟨rfl, rfl, rfl, rfl⟩

/-- Timer-only runs on a state with both enabling flags down emit nothing
and keep both flags down: the heartbeat loop breaks, and the reconnect task
only clears the in-flight flag. -/
theorem run_timerOnly_quiet (tr : List Event) :
    ∀ s : State, (∀ e ∈ tr, isTimerEvent e = true) →
    s.canSendHeartbeat = false → s.canReconnect = false →
    (run tr s).2 = [] ∧ (run tr s).1.canSendHeartbeat = false
      ∧ (run tr s).1.canReconnect = false := by
  induction tr with
  | nil => intro s _ hs hr; exact ⟨rfl, hs, hr⟩
  | cons e es ih =>
    intro s h hs hr
    have he : isTimerEvent e = true := h e (by simp)
    have hes : ∀ e' ∈ es, isTimerEvent e' = true := fun e' h' => h e' (by simp [h'])
    cases e <;> simp [isTimerEvent] at he
    · have hstep : step .heartbeatTickE s = (s, []) := by
        simp [step, heartbeatTick, hs]
      simpa [run, hstep] using ih s hes hs hr
    · have hstep : step .reconnectFireE s = ({ s with reconnecting := false }, []) := by
        simp [step, reconnectTimerFire, hr]
      simpa [run, hstep] using ih { s with reconnecting := false } hes hs hr

/-- Flags left by a processed disconnect: heartbeat sending and pending
reconnect are both disabled. -/
theorem disconnect_flags (s : State) :
    (disconnect s).1.canSendHeartbeat = false
      ∧ (disconnect s).1.canReconnect = false := by
  cases hs : s.socket <;>
    simp [disconnect, discardHeartBeatTimer, discardReconnectTimer,
      setCanSendHeartBeat, setCanReconnect, disconnectSocket, hs]

/-- C2: once disconnect() has been processed, both enabling flags are down,
and any subsequent sequence of heartbeat-loop wake-ups and reconnect-timer
firings emits no action at all (so no heartbeat send and no transport open)
and leaves both flags down. -/
theorem claim_C2_silent_after_disconnect (s : State) (tr : List Event)
    (h : ∀ e ∈ tr, isTimerEvent e = true) :
    ((disconnect s).1.canSendHeartbeat = false
      ∧ (disconnect s).1.canReconnect = false)
    ∧ (run tr (disconnect s).1).2 = []
    ∧ (run tr (disconnect s).1).1.canSendHeartbeat = false
    ∧ (run tr (disconnect s).1).1.canReconnect = false := by
  obtain ⟨h1, h2⟩ := disconnect_flags s
  exact ⟨⟨h1, h2⟩, run_timerOnly_quiet tr (disconnect s).1 h h1 h2⟩

/-- Witness for C2: a connected, heartbeating controller is disconnected and
three timer firings then elapse. -/
theorem claim_C2_witness :
    (∀ e ∈ ([.heartbeatTickE, .reconnectFireE, .heartbeatTickE] : List Event),
      isTimerEvent e = true)
    ∧ (((disconnect cexState).1.canSendHeartbeat = false
        ∧ (disconnect cexState).1.canReconnect = false)
      ∧ (run [.heartbeatTickE, .reconnectFireE, .heartbeatTickE]
          (disconnect cexState).1).2 = []
      ∧ (run [.heartbeatTickE, .reconnectFireE, .heartbeatTickE]
          (disconnect cexState).1).1.canSendHeartbeat = false
      ∧ (run [.heartbeatTickE, .reconnectFireE, .heartbeatTickE]
          (disconnect cexState).1).1.canReconnect = false) :=
  ⟨by decide, claim_C2_silent_after_disconnect cexState
    [.heartbeatTickE, .reconnectFireE, .heartbeatTickE] (by decide)⟩

/-- Closing or releasing the transport does not touch the ref counter. -/
theorem disconnectSocket_ref (s : State) : (disconnectSocket s).1.ref = s.ref := by
  unfold disconnectSocket; split <;> rfl

/-- A processed message task does not touch the controller state at all. -/
theorem connMessage_state (m : Json) (s : State) :
    ((onConnMessage m s).getD (s, [])).1 = s := by
  unfold onConnMessage
  cases hp : parseEnvelope m with
  | none => rfl
  | some v => obtain ⟨t, ev, r⟩ := v; rfl

/-- Connecting does not touch the ref counter. -/
theorem connect_ref (p : Params) (s : State) : (connect p s).1.ref = s.ref := rfl

/-- Disconnecting does not touch the ref counter. -/
theorem disconnect_ref (s : State) : (disconnect s).1.ref = s.ref := by
  show (disconnectSocket (setCanReconnect false (setCanSendHeartBeat false s))).1.ref = s.ref
  rw [disconnectSocket_ref]
  rfl

/-- Reconnecting does not touch the ref counter. -/
theorem reconnect_ref (s : State) : (reconnect s).1.ref = s.ref := by
  show (connect (disconnectSocket s).1.params (disconnectSocket s).1).1.ref = s.ref
  rw [connect_ref, disconnectSocket_ref]

/-- The close handler does not touch the ref counter. -/
theorem onConnClose_ref (ev : String) (s : State) :
    (onConnClose ev s).1.ref = s.ref := by
  by_cases h : (s.reconnectOnError && !s.reconnecting) = true <;>
    simp [onConnClose, triggerChanError, discardHeartBeatTimer,
      setCanSendHeartBeat, h]

/-- The open handler does not touch the ref counter. -/
theorem onConnOpen_ref (s : State) : (onConnOpen s).1.ref = s.ref := by
  by_cases h : s.heartBeatInterval > 0 <;>
    simp [onConnOpen, discardReconnectTimer, setCanReconnect,
      setCanSendHeartBeat, h]

/-- The four lifecycle handlers preserve the ref counter. -/
theorem lifecycle_ref (e : Event) (s : State) (h : lifecycleEvent e = true) :
    (step e s).1.ref = s.ref := by
  cases e <;> simp [lifecycleEvent] at h
  · exact connect_ref _ _
  · exact disconnect_ref _
  · exact onConnOpen_ref _
  · exact onConnClose_ref _ _

/-- No event ever decreases the ref counter. -/
theorem step_ref_mono (e : Event) (s : State) : s.ref ≤ (step e s).1.ref := by
  cases e
  case connectE p => exact le_of_eq (connect_ref p s).symm
  case disconnectE => exact le_of_eq (disconnect_ref s).symm
  case reconnectE => exact le_of_eq (reconnect_ref s).symm
  case connOpenE => exact le_of_eq (onConnOpen_ref s).symm
  case connCloseE r => exact le_of_eq (onConnClose_ref r s).symm
  case connErrorE err =>
    show s.ref ≤ (onConnError err s).1.ref
    have : (onConnError err s).1.ref
        = (onConnClose err (discardHeartBeatTimer s)).1.ref := rfl
    rw [this, onConnClose_ref]
    exact le_refl _
  case connMessageE m =>
    rw [show (step (.connMessageE m) s).1 = ((onConnMessage m s).getD (s, [])).1 from rfl,
      connMessage_state]
  case heartbeatTickE =>
    simp only [step, heartbeatTick]
    split
    · show s.ref ≤ ({ s with ref := s.ref + 1 } : State).ref
      simp
    · exact le_refl _
  case reconnectFireE =>
    simp only [step, reconnectTimerFire]
    split
    · show s.ref ≤ ({ (reconnect (setCanReconnect false s)).1
          with reconnecting := false } : State).ref
      rw [show ({ (reconnect (setCanReconnect false s)).1
          with reconnecting := false } : State).ref
          = (reconnect (setCanReconnect false s)).1.ref from rfl, reconnect_ref]
      exact le_refl _
    · exact le_refl _
  case makeRefE => simp [step, makeRef]
  case addChannelE c => exact le_refl _
  case removeChannelE c => exact le_refl _

/-- The ref counter is monotone along any run. -/
theorem run_ref_mono (tr : List Event) : ∀ s : State, s.ref ≤ (run tr s).1.ref := by
  induction tr with
  | nil => intro s; exact le_refl _
  | cons e es ih =>
    intro s
    calc s.ref ≤ (step e s).1.ref := step_ref_mono e s
      _ ≤ (run es (step e s).1).1.ref := ih _
      _ = (run (e :: es) s).1.ref := rfl

/-- Interleaving makeRef calls with connects, disconnects, opens and closes,
the values makeRef returns are the counter base plus 0, 1, 2, ... in order. -/
theorem traceRefs_shape (tr : List Event) :
    ∀ s : State, (∀ e ∈ tr, (isMakeRef e || lifecycleEvent e) = true) →
    traceRefs tr s
      = (List.range (tr.countP isMakeRef)).map (fun k : Nat => s.ref + (k : Int)) := by
  induction tr with
  | nil => intro s _; simp [traceRefs]
  | cons e es ih =>
    intro s h
    have he := h e (by simp)
    have hes : ∀ e' ∈ es, (isMakeRef e' || lifecycleEvent e') = true :=
      fun e' h' => h e' (by simp [h'])
    by_cases hm : isMakeRef e = true
    · have hE : e = .makeRefE := by cases e <;> simp [isMakeRef] at hm <;> rfl
      subst hE
      have hstep : (step Event.makeRefE s).1 = { s with ref := s.ref + 1 } := rfl
      show (makeRef s).1 :: traceRefs es (step Event.makeRefE s).1 = _
      rw [hstep, ih _ hes, List.countP_cons_of_pos _ _ (by simp [isMakeRef]),
        List.range_succ_eq_map, List.map_cons, List.map_map]
      have hf : ((fun k : Nat => s.ref + (k : Int)) ∘ Nat.succ)
          = fun k : Nat => ({ s with ref := s.ref + 1 } : State).ref + (k : Int) := by
        funext k
        simp only [Function.comp_apply]
        push_cast
        ring
      rw [hf]
      simp [makeRef]
    · have hl : lifecycleEvent e = true := by simpa [hm] using he
      have hpre : traceRefs (e :: es) s = traceRefs es (step e s).1 := by
        cases e <;> simp [isMakeRef] at hm <;> simp [traceRefs]
      rw [hpre, ih _ hes, lifecycle_ref e s hl,
        List.countP_cons_of_neg _ _ (by simp [hm])]

/-- C3: starting from a freshly constructed controller, any N makeRef calls
interleaved with connects, disconnects, transport opens and transport closes
return exactly 0, 1, ..., N-1: strictly increasing, pairwise distinct,
starting at 0; and no event sequence ever decreases the counter. -/
theorem claim_C3_makeRef_strictly_increasing (url : String) (interval : Int)
    (tr trAny : List Event) (s : State)
    (h : ∀ e ∈ tr, (isMakeRef e || lifecycleEvent e) = true) :
    traceRefs tr (init url interval)
      = (List.range (tr.countP isMakeRef)).map (fun k : Nat => (k : Int))
    ∧ (traceRefs tr (init url interval)).Pairwise (· < ·)
    ∧ (traceRefs tr (init url interval)).Nodup
    ∧ s.ref ≤ (run trAny s).1.ref := by
  have h1 : traceRefs tr (init url interval)
      = (List.range (tr.countP isMakeRef)).map (fun k : Nat => (k : Int)) := by
    rw [traceRefs_shape tr (init url interval) h]
    exact List.map_congr_left (fun a _ => by simp [init])
  have h2 : (traceRefs tr (init url interval)).Pairwise (· < ·) := by
    rw [h1]
    exact (List.pairwise_lt_range _).map _ (fun a b hab => by exact_mod_cast hab)
  exact ⟨h1, h2, h2.imp ne_of_lt, run_ref_mono trAny s⟩

/-- Trace used by the C3 witness: three makeRef calls interleaved with a
connect, a transport open, a transport close and a disconnect. -/
def wTrace : List Event :=
  [.makeRefE, .connectE [("token", "t")], .connOpenE, .makeRefE,
   .connCloseE "x", .disconnectE, .makeRefE]

/-- Witness for C3 on the concrete trace wTrace. -/
theorem claim_C3_witness :
    (∀ e ∈ wTrace, (isMakeRef e || lifecycleEvent e) = true)
    ∧ (traceRefs wTrace (init "ws://example" 1)
        = (List.range (wTrace.countP isMakeRef)).map (fun k => (k : Int))
      ∧ (traceRefs wTrace (init "ws://example" 1)).Pairwise (· < ·)
      ∧ (traceRefs wTrace (init "ws://example" 1)).Nodup
      ∧ (init "ws://example" 1).ref ≤ (run wTrace (init "ws://example" 1)).1.ref) :=
  ⟨by decide, claim_C3_makeRef_strictly_increasing "ws://example" 1 wTrace wTrace
    (init "ws://example" 1) (by decide)⟩

/-- Shape of the actions a processed close event emits: the phx_error
broadcast first, then the possible reconnect-timer spawn, the close
callbacks in registration order, and the delegate hook. -/
theorem onConnClose_acts (ev : String) (s : State) :
    (onConnClose ev s).2
      = (s.channels.map (fun ch => Action.triggerEvent ch "phx_error" (.str ev) 0))
        ++ ((if s.reconnectOnError && !s.reconnecting then
              [Action.spawnReconnectTimer] else [])
          ++ (List.range s.closeCallbacks).map (fun i => Action.closeCb i ev)
          ++ (if s.delegate then [Action.delegateDidClose ev] else [])) := by
  by_cases h : (s.reconnectOnError && !s.reconnecting) = true <;>
    simp [onConnClose, triggerChanError, discardHeartBeatTimer,
      setCanSendHeartBeat, h]

/-- C4: a processed close event delivers exactly one phx_error trigger with
the close reason as payload and ref 0 to each registered channel, and every
such delivery precedes the close callbacks and the delegate hook (the action
list is the broadcast followed by a trigger-free remainder). -/
theorem claim_C4_phx_error_before_close_callbacks (s : State) (reason : String)
    (c : Channel) (hnd : s.channels.Nodup) (hc : c ∈ s.channels) :
    ((onConnClose reason s).2.filter (isTriggerTo c)
        = [.triggerEvent c "phx_error" (.str reason) 0])
    ∧ ∃ rest, (onConnClose reason s).2
        = (s.channels.map (fun ch => Action.triggerEvent ch "phx_error" (.str reason) 0))
            ++ rest
        ∧ ∀ a ∈ rest, isTrigger a = false := by
  refine ⟨?_, ⟨_, onConnClose_acts reason s, ?_⟩⟩
  · rw [onConnClose_acts reason s, List.filter_append]
    have h1 : (s.channels.map
          (fun ch => Action.triggerEvent ch "phx_error" (.str reason) 0)).filter
            (isTriggerTo c)
        = [Action.triggerEvent c "phx_error" (.str reason) 0] := by
      rw [List.filter_map]
      have hcomp : (isTriggerTo c
            ∘ fun ch => Action.triggerEvent ch "phx_error" (.str reason) 0)
          = fun ch => ch == c := by
        funext ch; rfl
      rw [hcomp, List.filter_beq, List.count_eq_one_of_mem hnd hc,
        List.replicate_one]
      rfl
    have h2 : ((if s.reconnectOnError && !s.reconnecting then
              [Action.spawnReconnectTimer] else [])
          ++ (List.range s.closeCallbacks).map (fun i => Action.closeCb i reason)
          ++ (if s.delegate then [Action.delegateDidClose reason] else [])).filter
            (isTriggerTo c) = [] := by
      split_ifs <;>
        simp [List.filter_append, List.filter_map, Function.comp_def, isTriggerTo]
    rw [h1, h2]
    rfl
  · intro a ha
    simp only [List.mem_append] at ha
    rcases ha with (ha | ha) | ha
    · split at ha
      · simp only [List.mem_singleton] at ha; subst ha; rfl
      · simp at ha
    · obtain ⟨i, _, rfl⟩ := List.mem_map.mp ha; rfl
    · split at ha
      · simp only [List.mem_singleton] at ha; subst ha; rfl
      · simp at ha

/-- Parsed-message delivery: with well-formed topic, event and ref fields,
the message task leaves the state unchanged and emits the triggers for the
topic-matching channels, in registration order, followed by one message
callback invocation per registered callback. -/
theorem onConnMessage_eq (s : State) (msg : Json) (topic ev : String) (r : Int)
    (hT : msg.lookup "topic" = .str topic) (hE : msg.lookup "event" = .str ev)
    (hR : parseRef (msg.lookup "ref") = some r) :
    onConnMessage msg s = some (s,
      (s.channels.filter (fun c => c.topic == topic)).map
        (fun c => Action.triggerEvent c ev (msg.lookup "payload") r)
      ++ (List.range s.messageCallbacks).map (fun i => Action.messageCb i msg)) := by
  simp [onConnMessage, parseEnvelope, hT, hE, hR, Json.asString]

/-- C6: a message whose wire ref is null is delivered to matching channels
with ref -1, the documented no-ref sentinel, not 0; a message whose wire ref
is the integer n is delivered with exactly n. -/
theorem claim_C6_null_ref_as_sentinel (s : State) (msg1 msg2 : Json)
    (topic1 ev1 topic2 ev2 : String) (n : Int)
    (hT1 : msg1.lookup "topic" = .str topic1)
    (hE1 : msg1.lookup "event" = .str ev1)
    (hR1 : msg1.lookup "ref" = Json.null)
    (hT2 : msg2.lookup "topic" = .str topic2)
    (hE2 : msg2.lookup "event" = .str ev2)
    (hR2 : msg2.lookup "ref" = Json.num n) :
    onConnMessage msg1 s = some (s,
      (s.channels.filter (fun c => c.topic == topic1)).map
        (fun c => Action.triggerEvent c ev1 (msg1.lookup "payload") (-1))
      ++ (List.range s.messageCallbacks).map (fun i => Action.messageCb i msg1))
    ∧ onConnMessage msg2 s = some (s,
      (s.channels.filter (fun c => c.topic == topic2)).map
        (fun c => Action.triggerEvent c ev2 (msg2.lookup "payload") n)
      ++ (List.range s.messageCallbacks).map (fun i => Action.messageCb i msg2)) := by
  constructor
  · exact onConnMessage_eq s msg1 topic1 ev1 (-1) hT1 hE1
      (by rw [hR1]; rfl)
  · exact onConnMessage_eq s msg2 topic2 ev2 n hT2 hE2
      (by rw [hR2]; rfl)

/-- C7, evaluated at a failing input: with heartbeat sending enabled on the
concrete state wState, the heartbeat actually sent serializes the envelope
with topic "phoenix", event "heartbeat", the freshly minted ref 0 — and
payload null, not the empty object the claim states: the braced-init
payload at line 98 value-initializes the external JSON value to null, so
the wire text is "payload":null and differs from the serialization of the
claimed empty-object envelope. -/
theorem claim_C7_heartbeat_payload_null :
    (heartbeatTick wState).2
      = [.send (Json.dump (heartbeatEnvelope (makeRef wState).1))]
    ∧ Json.dump (heartbeatEnvelope (makeRef wState).1)
      = "\x7b\"topic\":\"phoenix\",\"event\":\"heartbeat\",\"payload\":null,\"ref\":0\x7d"
    ∧ Json.dump (heartbeatEnvelope (makeRef wState).1)
      ≠ Json.dump (.obj [("topic", .str "phoenix"), ("event", .str "heartbeat"),
          ("payload", .obj []), ("ref", .num (makeRef wState).1)]) := by
  refine ⟨rfl, rfl, ?_⟩
  decide

/-- C8: a well-formed message is delivered exactly to the channels whose
topic equals the envelope topic, and to every registered message callback;
a registered channel with a different topic receives no trigger. -/
theorem claim_C8_routing_by_topic (s : State) (msg : Json) (topic ev : String)
    (r : Int) (c : Channel) (hc : c ∈ s.channels) (hne : c.topic ≠ topic)
    (hT : msg.lookup "topic" = .str topic) (hE : msg.lookup "event" = .str ev)
    (hR : parseRef (msg.lookup "ref") = some r) :
    onConnMessage msg s = some (s,
      (s.channels.filter (fun ch => ch.topic == topic)).map
        (fun ch => Action.triggerEvent ch ev (msg.lookup "payload") r)
      ++ (List.range s.messageCallbacks).map (fun i => Action.messageCb i msg))
    ∧ ((s.channels.filter (fun ch => ch.topic == topic)).map
        (fun ch => Action.triggerEvent ch ev (msg.lookup "payload") r)
      ++ (List.range s.messageCallbacks).map
        (fun i => Action.messageCb i msg)).filter (isTriggerTo c) = [] := by
  refine ⟨onConnMessage_eq s msg topic ev r hT hE hR, ?_⟩
  rw [List.filter_append, List.filter_map]
  have hcomp : (isTriggerTo c
        ∘ fun ch => Action.triggerEvent ch ev (msg.lookup "payload") r)
      = fun ch => ch == c := by
    funext ch; rfl
  have h1 : (s.channels.filter (fun ch => ch.topic == topic)).filter
      (fun ch => ch == c) = [] := by
    rw [List.filter_eq_nil_iff]
    intro ch hch hbeq
    have h3 := (List.mem_filter.mp hch).2
    rw [beq_iff_eq] at hbeq h3
    exact hne (hbeq ▸ h3)
  rw [hcomp, h1]
  simp [List.filter_map, Function.comp_def, isTriggerTo]

/-- C9: removeChannel leaves the persisted registry untouched (it erases
only from a local copy), so a registered channel still receives the
phx_error broadcast of a later close and the routed deliveries of later
matching messages. -/
theorem claim_C9_removeChannel_no_effect (s : State) (c : Channel)
    (reason : String) (msg : Json) (ev : String) (r : Int)
    (hc : c ∈ s.channels)
    (hT : msg.lookup "topic" = .str c.topic)
    (hE : msg.lookup "event" = .str ev)
    (hR : parseRef (msg.lookup "ref") = some r) :
    removeChannel c s = s
    ∧ Action.triggerEvent c "phx_error" (.str reason) 0
        ∈ (onConnClose reason (removeChannel c s)).2
    ∧ onConnMessage msg (removeChannel c s)
        = some (removeChannel c s,
          ((removeChannel c s).channels.filter (fun ch => ch.topic == c.topic)).map
            (fun ch => Action.triggerEvent ch ev (msg.lookup "payload") r)
          ++ (List.range (removeChannel c s).messageCallbacks).map
            (fun i => Action.messageCb i msg))
    ∧ Action.triggerEvent c ev (msg.lookup "payload") r
        ∈ ((removeChannel c s).channels.filter (fun ch => ch.topic == c.topic)).map
            (fun ch => Action.triggerEvent ch ev (msg.lookup "payload") r) := by
  refine ⟨rfl, ?_, ?_, ?_⟩
  · rw [show removeChannel c s = s from rfl, onConnClose_acts reason s]
    exact List.mem_append_left _ (List.mem_map_of_mem _ hc)
  · exact onConnMessage_eq s msg c.topic ev r hT hE hR
  · exact List.mem_map_of_mem _ (List.mem_filter.mpr ⟨hc, by simp⟩)

/-- Witness for C4 at the concrete state wState and its first channel. -/
theorem claim_C4_witness :
    (wState.channels.Nodup ∧ (⟨0, "room:1"⟩ : Channel) ∈ wState.channels)
    ∧ (((onConnClose "ECONNRESET" wState).2.filter (isTriggerTo ⟨0, "room:1"⟩)
        = [.triggerEvent ⟨0, "room:1"⟩ "phx_error" (.str "ECONNRESET") 0])
      ∧ ∃ rest, (onConnClose "ECONNRESET" wState).2
          = (wState.channels.map
              (fun ch => Action.triggerEvent ch "phx_error" (.str "ECONNRESET") 0))
            ++ rest
          ∧ ∀ a ∈ rest, isTrigger a = false) :=
  ⟨⟨by decide, by decide⟩,
    claim_C4_phx_error_before_close_callbacks wState "ECONNRESET" ⟨0, "room:1"⟩
      (by decide) (by decide)⟩

/-- Witness for C6 at the two concrete messages. -/
theorem claim_C6_witness :
    (wMsgNull.lookup "topic" = .str "room:1"
      ∧ wMsgNull.lookup "ref" = Json.null
      ∧ wMsgInt.lookup "ref" = Json.num 7)
    ∧ (onConnMessage wMsgNull wState = some (wState,
        (wState.channels.filter (fun c => c.topic == "room:1")).map
          (fun c => Action.triggerEvent c "new_msg" (wMsgNull.lookup "payload") (-1))
        ++ (List.range wState.messageCallbacks).map
          (fun i => Action.messageCb i wMsgNull))
      ∧ onConnMessage wMsgInt wState = some (wState,
        (wState.channels.filter (fun c => c.topic == "room:1")).map
          (fun c => Action.triggerEvent c "new_msg" (wMsgInt.lookup "payload") 7)
        ++ (List.range wState.messageCallbacks).map
          (fun i => Action.messageCb i wMsgInt))) :=
  ⟨⟨rfl, rfl, rfl⟩,
    claim_C6_null_ref_as_sentinel wState wMsgNull wMsgInt "room:1" "new_msg"
      "room:1" "new_msg" 7 rfl rfl rfl rfl rfl rfl⟩

/-- Witness for C8 at the concrete message wMsgInt: the channel with topic
"lobby" gets no trigger for a "room:1" envelope. -/
theorem claim_C8_witness :
    ((⟨1, "lobby"⟩ : Channel) ∈ wState.channels
      ∧ (⟨1, "lobby"⟩ : Channel).topic ≠ "room:1")
    ∧ (onConnMessage wMsgInt wState = some (wState,
        (wState.channels.filter (fun ch => ch.topic == "room:1")).map
          (fun ch => Action.triggerEvent ch "new_msg" (wMsgInt.lookup "payload") 7)
        ++ (List.range wState.messageCallbacks).map
          (fun i => Action.messageCb i wMsgInt))
      ∧ ((wState.channels.filter (fun ch => ch.topic == "room:1")).map
          (fun ch => Action.triggerEvent ch "new_msg" (wMsgInt.lookup "payload") 7)
        ++ (List.range wState.messageCallbacks).map
          (fun i => Action.messageCb i wMsgInt)).filter
            (isTriggerTo ⟨1, "lobby"⟩) = []) :=
  ⟨⟨by decide, by decide⟩,
    claim_C8_routing_by_topic wState wMsgInt "room:1" "new_msg" 7 ⟨1, "lobby"⟩
      (by decide) (by decide) rfl rfl rfl⟩

/-- Witness for C9: the first channel is removed, yet still receives the
phx_error broadcast and the routed "room:1" message. -/
theorem claim_C9_witness :
    ((⟨0, "room:1"⟩ : Channel) ∈ wState.channels
      ∧ wMsgInt.lookup "topic" = .str (⟨0, "room:1"⟩ : Channel).topic)
    ∧ (removeChannel ⟨0, "room:1"⟩ wState = wState
      ∧ Action.triggerEvent ⟨0, "room:1"⟩ "phx_error" (.str "ECONNRESET") 0
          ∈ (onConnClose "ECONNRESET" (removeChannel ⟨0, "room:1"⟩ wState)).2
      ∧ onConnMessage wMsgInt (removeChannel ⟨0, "room:1"⟩ wState)
          = some (removeChannel ⟨0, "room:1"⟩ wState,
            ((removeChannel ⟨0, "room:1"⟩ wState).channels.filter
                (fun ch => ch.topic == (⟨0, "room:1"⟩ : Channel).topic)).map
              (fun ch => Action.triggerEvent ch "new_msg" (wMsgInt.lookup "payload") 7)
            ++ (List.range (removeChannel ⟨0, "room:1"⟩ wState).messageCallbacks).map
              (fun i => Action.messageCb i wMsgInt))
      ∧ Action.triggerEvent ⟨0, "room:1"⟩ "new_msg" (wMsgInt.lookup "payload") 7
          ∈ ((removeChannel ⟨0, "room:1"⟩ wState).channels.filter
              (fun ch => ch.topic == (⟨0, "room:1"⟩ : Channel).topic)).map
            (fun ch => Action.triggerEvent ch "new_msg" (wMsgInt.lookup "payload") 7)) :=
  ⟨⟨by decide, rfl⟩,
    claim_C9_removeChannel_no_effect wState ⟨0, "room:1"⟩ "ECONNRESET" wMsgInt
      "new_msg" 7 (by decide) rfl rfl rfl⟩

end Phx
